import Mathlib

/-!
Shallow embedding of `server.js` from the selenium_ad_extracter repository.

The source is a small Express service with two routes:
* `POST /api/run-collector` (lines 20-72): validates the request body, resolves
  the artifact path with `path.join(__dirname, csvFile)`, deletes any stale
  artifact, builds a shell command string by template interpolation, runs it
  with `child_process.exec`, accumulates live stdout/stderr chunks plus the
  buffered stdout/stderr handed to the exec completion callback into one
  `logs` string, and answers 200/500 depending on the exec error and on
  whether the CSV file exists afterwards.
* `GET /download/:filename` (lines 77-84): re-resolves the name with
  `path.join(__dirname, filename)` and streams the file, or answers 404.

Filesystem paths are modelled as lists of path segments; the Node `path.join`
and `path.basename` POSIX semantics (separator splitting, normalisation of
`.` and `..`, last-segment basename) are modelled explicitly below.  The
filesystem itself is the list of paths of the files that exist.  The external
program launched by `exec` is opaque, so a run is described by the data the
code observes: the exec callback error (if any), the ordered list of
stdout/stderr chunks delivered to the live data handlers, and whether the
program wrote the artifact file.
-/

namespace AdExtracter

/-! ### Path model: Node `path.join` / `path.basename` (POSIX) -/

/-- Split a character list at every occurrence of `sep` (character-level, so
that the kernel can evaluate it cheaply). -/
def splitCharAux (sep : Char) : List Char → List Char → List String
  | [], cur => [String.mk cur.reverse]
  | c :: rest, cur =>
    if c = sep then String.mk cur.reverse :: splitCharAux sep rest []
    else splitCharAux sep rest (c :: cur)

/-- The fields of a string between occurrences of `sep`. -/
def splitChar (sep : Char) (s : String) : List String :=
  splitCharAux sep s.data []

/-- All nonempty `/`-separated components of a path string; empty components
are dropped, as `path.join` ignores them. -/
def splitPath (s : String) : List String :=
  (splitChar '/' s).filter (fun c => ¬ c = "")

/-- Path normalisation as performed by Node `path.join` on an absolute base:
`.` and empty components vanish, `..` pops the last accumulated component
(and is dropped at the root, as for an absolute POSIX path). -/
def normSegs : List String → List String → List String
  | acc, [] => acc
  | acc, c :: rest =>
    if c = "" ∨ c = "." then normSegs acc rest
    else if c = ".." then normSegs acc.dropLast rest
    else normSegs (acc ++ [c]) rest

/-- `path.join(dir, name)` for an already-normalised absolute `dir`, given as
its list of segments. -/
def joinPath (dir : List String) (name : String) : List String :=
  normSegs dir (splitPath name)

/-- `path.basename`: the last path segment. -/
def basename (p : List String) : String :=
  p.getLastD ""

/-- Render a segment path back to the absolute path string interpolated into
the command line (line 34 of the source). -/
def renderPath (p : List String) : String :=
  "/" ++ String.intercalate "/" p

/-! ### Configuration, request body and run behaviour -/

/-- Startup configuration (lines 12-15): interpreter path, script path, the
default artifact path `CSV_FILE`, and the trusted root `__dirname` under
which artifacts live. -/
structure Config where
  pythonPath : String
  pythonScript : String
  defaultCsvFile : List String
  dirname : List String
  deriving DecidableEq, Repr

/-- The JSON request body of `POST /api/run-collector` (line 21).  A missing
field is `none`; JavaScript truthiness of the present values is modelled
where the code tests it. -/
structure ReqBody where
  url : Option String
  maxPages : Option Nat
  csvFile : Option String
  headless : Bool
  deriving DecidableEq, Repr

/-- JavaScript truthiness of an optional string (`!url`, `csvFile ? … : …`):
falsy when absent or empty. -/
def strTruthy : Option String → Bool
  | some s => ¬ s = ""
  | none => false

/-- One chunk delivered to a `data` handler of the child's stdout or stderr
pipe (lines 65-71), tagged with the stream it came from. -/
inductive Chunk where
  | out (s : String)
  | err (s : String)
  deriving DecidableEq, Repr

/-- The text of a chunk, as appended by `logs += data.toString()`. -/
def Chunk.text : Chunk → String
  | .out s => s
  | .err s => s

/-- The stdout part of a chunk, if any. -/
def Chunk.outPart : Chunk → Option String
  | .out s => some s
  | .err _ => none

/-- The stderr part of a chunk, if any. -/
def Chunk.errPart : Chunk → Option String
  | .out _ => none
  | .err s => some s

/-- How a failed `exec` ended: the program could not be started at all, or it
ran and exited non-zero / was killed.  Node reports the distinction on the
error object (`error.code` is an errno string for a spawn failure and the
numeric exit code otherwise); the handler in the source never inspects it,
reading only `error.message`. -/
inductive FailKind where
  | launch
  | run (code : Int)
  deriving DecidableEq, Repr

/-- The error value passed to the `exec` completion callback (line 43). -/
structure ExecError where
  message : String
  kind : FailKind
  deriving DecidableEq, Repr

/-- The observable behaviour of one invocation of the opaque external
program: the callback error (none on clean exit), the stdout/stderr chunks
in arrival order, and whether the program wrote the artifact file. -/
structure RunBehavior where
  error : Option ExecError
  chunks : List Chunk
  writes : Bool
  deriving DecidableEq, Repr

/-- The live combined log accumulated by the two `data` handlers
(lines 64-71): the concatenation of all chunks in arrival order. -/
def combinedLog (chunks : List Chunk) : String :=
  match chunks with
  | [] => ""
  | c :: rest => c.text ++ combinedLog rest

/-- The buffered stdout handed to the exec completion callback: `exec`
buffers the whole stdout stream, i.e. the concatenation of the out chunks. -/
def bufferedOut (chunks : List Chunk) : String :=
  match chunks with
  | [] => ""
  | c :: rest => (c.outPart.getD "") ++ bufferedOut rest

/-- The buffered stderr handed to the exec completion callback. -/
def bufferedErr (chunks : List Chunk) : String :=
  match chunks with
  | [] => ""
  | c :: rest => (c.errPart.getD "") ++ bufferedErr rest

/-! ### The `POST /api/run-collector` handler (lines 20-72) -/

/-- The final CSV path (lines 26-28): `csvFile ? path.join(__dirname, csvFile)
: CSV_FILE`, with JavaScript truthiness of `csvFile`. -/
def finalCsvFile (cfg : Config) (csvFile : Option String) : List String :=
  match csvFile with
  | some name => if name = "" then cfg.defaultCsvFile else joinPath cfg.dirname name
  | none => cfg.defaultCsvFile

/-- The shell command string built by template interpolation (lines 34-36);
`if (maxPages)` is falsy for an absent field and for `0`. -/
def buildCmd (cfg : Config) (url : String) (csvPath : String)
    (maxPages : Option Nat) (headless : Bool) : String :=
  let base := "\"" ++ cfg.pythonPath ++ "\" \"" ++ cfg.pythonScript
    ++ "\" --url \"" ++ url ++ "\" --csv-file \"" ++ csvPath ++ "\""
  let withPages :=
    match maxPages with
    | some n => if n = 0 then base else base ++ " --max-pages " ++ toString n
    | none => base
  if headless then withPages ++ " --headless" else withPages

/-- Side effects the handler performs, in order: `fs.unlinkSync` on a path
(line 31) and spawning `exec` with a single command string (line 43). -/
inductive Event where
  | unlink (p : List String)
  | spawn (cmd : String)
  deriving DecidableEq, Repr

/-- The HTTP response of the collector route: 400 with an error message,
500 with the accumulated logs, or 200 with logs and a download link. -/
inductive Response where
  | clientError (status : Nat) (msg : String)
  | failure (status : Nat) (logs : String)
  | success (logs : String) (download : String)
  deriving DecidableEq, Repr

/-- The logs field of a response, when it has one. -/
def Response.logsField : Response → Option String
  | .clientError _ _ => none
  | .failure _ logs => some logs
  | .success logs _ => some logs

/-- The value of `logs` once the exec completion callback has re-appended
the buffered stdout and stderr (lines 44-45): the live chunks accumulated in
arrival order, then a newline plus the whole buffered stdout when nonempty,
then a newline plus the whole buffered stderr when nonempty. -/
def callbackLogs (chunks : List Chunk) : String :=
  let live := combinedLog chunks
  let so := bufferedOut chunks
  let se := bufferedErr chunks
  let logs1 := if so = "" then live else live ++ "\n" ++ so
  if se = "" then logs1 else logs1 ++ "\n" ++ se

/-- Lines 30-31: delete the old CSV if it exists (`fs.unlinkSync`); the
filesystem no longer contains the path afterwards. -/
def deleteFile (p : List String) (fs : List (List String)) :
    List (List String) :=
  if p ∈ fs then fs.filter (fun q => ¬ q = p) else fs

/-- Everything observable about one handled request: the response, the
ordered side-effect trace, and the filesystem afterwards. -/
structure Outcome where
  response : Response
  trace : List Event
  fs : List (List String)
  deriving DecidableEq, Repr

/-- The `POST /api/run-collector` handler (lines 20-72).  `fs` is the set of
existing files when the request arrives.  Control flow follows the source:
missing/empty `url` answers 400 before anything else; the stale artifact is
deleted when present; `exec` is started on the interpolated command string;
the live data handlers append every chunk in arrival order, and when the
process closes the completion callback appends the buffered stdout and
stderr again (each prefixed by a newline when nonempty, lines 44-45); an
exec error answers 500 with the error message appended (lines 47-50) before
any artifact check; otherwise the artifact existence check picks between the
success response with the download link (lines 53-58) and the 500
"CSV not generated" response (line 60). -/
def runCollector (cfg : Config) (req : ReqBody) (fs : List (List String))
    (run : RunBehavior) : Outcome :=
  if ¬ strTruthy req.url then
    { response := .clientError 400 "URL is required", trace := [], fs := fs }
  else
    let url := req.url.getD ""
    let p := finalCsvFile cfg req.csvFile
    let fs1 := deleteFile p fs
    let tr1 := if p ∈ fs then [Event.unlink p] else []
    let cmd := buildCmd cfg url (renderPath p) req.maxPages req.headless
    let fs2 := if run.writes then p :: fs1 else fs1
    let logs2 := callbackLogs run.chunks
    match run.error with
    | some e =>
      { response := .failure 500 (logs2 ++ "\n❌ Error: " ++ e.message),
        trace := tr1 ++ [Event.spawn cmd], fs := fs2 }
    | none =>
      if p ∈ fs2 then
        { response := .success logs2 ("/download/" ++ basename p),
          trace := tr1 ++ [Event.spawn cmd], fs := fs2 }
      else
        { response := .failure 500 (logs2 ++ "\nCSV not generated"),
          trace := tr1 ++ [Event.spawn cmd], fs := fs2 }

/-! ### The `GET /download/:filename` route (lines 77-84) -/

/-- Result of the download route: stream the file at the re-resolved path,
or 404. -/
inductive DownloadResult where
  | download (p : List String)
  | notFound (status : Nat)
  deriving DecidableEq, Repr

/-- The download route: `path.join(__dirname, req.params.filename)` then an
existence check (lines 78-83). -/
def downloadRoute (cfg : Config) (filename : String)
    (fs : List (List String)) : DownloadResult :=
  let filePath := joinPath cfg.dirname filename
  if filePath ∈ fs then .download filePath else .notFound 404

/-! ### Live log observations (lines 64-71)

Node's event loop runs the two `data` handlers serially: each handler
invocation performs one synchronous `logs += data.toString()`, so the states
of `logs` observable during the run are exactly the folds of whole chunks in
arrival order. -/

/-- One `data` handler invocation: append the whole chunk. -/
def liveLogStep (logs : String) (c : Chunk) : String :=
  logs ++ c.text

/-- The contents of `logs` after the first `k` data events. -/
def liveLogAfter (chunks : List Chunk) (k : Nat) : String :=
  (chunks.take k).foldl liveLogStep ""

/-! ### Concrete fixtures for closed counterexamples and witnesses -/

/-- A concrete configuration: the service deployed at `/srv/app` with the
stock interpreter, script and default CSV names of lines 13-15. -/
def cfg0 : Config :=
  { pythonPath := "python"
    pythonScript := "/srv/app/automated_ad_collector.py"
    defaultCsvFile := ["srv", "app", "ad_data_collection.csv"]
    dirname := ["srv", "app"] }

/-! ### Helper lemmas about strings -/

theorem str_append_assoc (a b c : String) : a ++ b ++ c = a ++ (b ++ c) :=
  String.ext (by
    rw [String.data_append, String.data_append, String.data_append,
      String.data_append, List.append_assoc])

theorem str_append_empty (a : String) : a ++ "" = a :=
  String.ext (by rw [String.data_append]; exact List.append_nil a.data)

theorem str_append_left_cancel {a b c : String} (h : a ++ b = a ++ c) :
    b = c := by
  have hd : a.data ++ b.data = a.data ++ c.data := by
    rw [← String.data_append, ← String.data_append, h]
  exact String.ext (List.append_cancel_left hd)

theorem str_length_append (a b : String) :
    (a ++ b).length = a.length + b.length := by
  cases a with
  | mk da =>
    cases b with
    | mk db => simp [String.length, String.append]

/-! ### Theorems -/

/-- **C4.** A request body without the `url` field is answered 400 with the
"URL is required" error, no process is spawned, nothing is deleted, and the
filesystem is untouched: the guard on line 23 returns before the unlink on
line 31 and the exec on line 43, so the outcome is exactly the 400 response
with an empty side-effect trace and the filesystem unchanged. -/
theorem c4_missing_url_rejected (cfg : Config) (req : ReqBody)
    (fs : List (List String)) (run : RunBehavior) (h : req.url = none) :
    runCollector cfg req fs run =
      { response := .clientError 400 "URL is required", trace := [], fs := fs } := by
  simp [runCollector, strTruthy, h]

/-- Witness for C4: a concrete request with no `url` field. -/
theorem c4_missing_url_rejected_witness :
    runCollector cfg0
        { url := none, maxPages := some 3, csvFile := some "report.csv", headless := true }
        [["srv", "app", "report.csv"]]
        { error := none, chunks := [Chunk.out "hi"], writes := true } =
      { response := .clientError 400 "URL is required", trace := [],
        fs := [["srv", "app", "report.csv"]] } :=
  c4_missing_url_rejected cfg0 _ _ _ rfl

/-- Folding the data-handler step over a chunk list appends the chunks'
concatenation to the accumulator. -/
theorem foldl_liveLogStep (cs : List Chunk) (a : String) :
    cs.foldl liveLogStep a = a ++ combinedLog cs := by
  induction cs generalizing a with
  | nil => simp [combinedLog, str_append_empty]
  | cons c t ih => simp [combinedLog, liveLogStep, ih, str_append_assoc]

/-- **C9.** Each `data` handler invocation appends one whole chunk: the log
state after `k + 1` data events is the state after `k` events followed by
the entire `k`-th chunk in arrival order, and the state after all events is
the combined log (the arrival-ordered concatenation of whole chunks).
Consequently every observable state of `logs` during a run is a
concatenation of whole chunks in arrival order — no observation splits a
chunk.  (Node's event loop runs the two handlers serially, so the
arrival-ordered event list is the faithful model of lines 64-71.) -/
theorem c9_live_log_appends_whole_chunks (chunks : List Chunk) (k : Nat)
    (c : Chunk) (h : chunks[k]? = some c) :
    liveLogAfter chunks (k + 1) = liveLogAfter chunks k ++ c.text ∧
    liveLogAfter chunks chunks.length = combinedLog chunks := by
  constructor
  · unfold liveLogAfter
    rw [List.take_succ, h]
    simp [List.foldl_append, liveLogStep]
  · unfold liveLogAfter
    rw [List.take_length, foldl_liveLogStep]
    exact String.ext (by rw [String.data_append]; rfl)

/-- Witness for C9: a concrete run with a stdout chunk followed by a stderr
chunk; the second observation extends the first by the whole stderr chunk. -/
theorem c9_live_log_appends_whole_chunks_witness :
    liveLogAfter [Chunk.out "ad 1 found\n", Chunk.err "warn: slow page\n"] 2 =
      liveLogAfter [Chunk.out "ad 1 found\n", Chunk.err "warn: slow page\n"] 1 ++
        (Chunk.err "warn: slow page\n").text ∧
    liveLogAfter [Chunk.out "ad 1 found\n", Chunk.err "warn: slow page\n"] 2 =
      combinedLog [Chunk.out "ad 1 found\n", Chunk.err "warn: slow page\n"] :=
  c9_live_log_appends_whole_chunks
    [Chunk.out "ad 1 found\n", Chunk.err "warn: slow page\n"] 1
    (Chunk.err "warn: slow page\n") rfl

/-- **C1.** The claim fails on the code: the external program is invoked
with a single shell-interpolated command string built by concatenating user
input (lines 34-36 and 43), not with a list of discrete arguments.  At the
concrete request URL `x" ; echo pwned ; "` the template of line 34 yields
the shown command string, and splitting it at its double quotes (the fields
at even indices lie outside every quoted region) shows the user-controlled
text ` ; echo pwned ; ` at even index 6, where a shell parses it as a
separate command (command injection).  The side-effect trace confirms that
exactly this one string is handed to `exec`. -/
theorem c1_shell_interpolated_command :
    buildCmd cfg0 "x\" ; echo pwned ; \""
        (renderPath (finalCsvFile cfg0 none)) none false =
      "\"python\" \"/srv/app/automated_ad_collector.py\" --url \"x\" ; echo pwned ; \"\" --csv-file \"/srv/app/ad_data_collection.csv\"" ∧
    splitChar '"' (buildCmd cfg0 "x\" ; echo pwned ; \""
        (renderPath (finalCsvFile cfg0 none)) none false) =
      ["", "python", " ", "/srv/app/automated_ad_collector.py", " --url ", "x",
        " ; echo pwned ; ", "", " --csv-file ", "/srv/app/ad_data_collection.csv", ""] ∧
    (runCollector cfg0
        { url := some "x\" ; echo pwned ; \"", maxPages := none,
          csvFile := none, headless := false }
        [] { error := none, chunks := [], writes := false }).trace =
      [Event.spawn
        "\"python\" \"/srv/app/automated_ad_collector.py\" --url \"x\" ; echo pwned ; \"\" --csv-file \"/srv/app/ad_data_collection.csv\""] := by
  refine ⟨rfl, by decide, by decide⟩

/-- **C2.** The claim fails on the code: `path.join(__dirname, name)`
(lines 27 and 78) neither rejects nor neutralises parent-directory
segments.  For the traversal name `../../etc/passwd` the resolution
succeeds — no error — and yields a path outside the trusted root (the root's
segments are not a prefix of the result); the download route streams that
outside file when it exists, and a collector request with that `csvFile`
deletes the outside file (`fs.unlinkSync`, line 31) before spawning. -/
theorem c2_traversal_resolves_outside_root :
    joinPath cfg0.dirname "../../etc/passwd" = ["etc", "passwd"] ∧
    ¬ cfg0.dirname <+: joinPath cfg0.dirname "../../etc/passwd" ∧
    downloadRoute cfg0 "../../etc/passwd" [["etc", "passwd"]] =
      .download ["etc", "passwd"] ∧
    (runCollector cfg0
        { url := some "http://example.com", maxPages := none,
          csvFile := some "../../etc/passwd", headless := false }
        [["etc", "passwd"]]
        { error := none, chunks := [], writes := false }).trace.head? =
      some (Event.unlink ["etc", "passwd"]) ∧
    (runCollector cfg0
        { url := some "http://example.com", maxPages := none,
          csvFile := some "../../etc/passwd", headless := false }
        [["etc", "passwd"]]
        { error := none, chunks := [], writes := false }).fs = [] := by
  refine ⟨by decide, by decide, by decide, by decide, by decide⟩

/-- The callback logs extend the live combined log: the buffered stdout and
stderr re-appended by the completion callback only add a suffix. -/
theorem callbackLogs_extends_combinedLog (cs : List Chunk) :
    ∃ rest, callbackLogs cs = combinedLog cs ++ rest := by
  unfold callbackLogs
  by_cases h1 : bufferedOut cs = ""
  · by_cases h2 : bufferedErr cs = ""
    · simp only [h1, h2, ite_true]
      exact ⟨"", (str_append_empty _).symm⟩
    · simp only [h1, h2, ite_true, ite_false]
      exact ⟨"\n" ++ bufferedErr cs, by rw [str_append_assoc]⟩
  · by_cases h2 : bufferedErr cs = ""
    · simp only [h1, h2, ite_true, ite_false]
      exact ⟨"\n" ++ bufferedOut cs, by rw [str_append_assoc]⟩
    · simp only [h1, h2, ite_false]
      exact ⟨"\n" ++ bufferedOut cs ++ ("\n" ++ bufferedErr cs), by
        simp only [str_append_assoc]⟩

/-- **C6.** When the external program exits non-zero or abnormally (the exec
completion callback receives an error, lines 47-50), the Coordinator reports
failure (HTTP 500, success false) with the accumulated logs included
verbatim — the response logs are the callback logs, which extend the live
combined log, followed by the error line — and the outcome is the same
whether or not the artifact file exists, because the error branch returns
before the existence check of line 53. -/
theorem c6_nonzero_exit_fails_with_verbatim_logs (cfg : Config)
    (req : ReqBody) (fs : List (List String)) (run : RunBehavior)
    (e : ExecError) (hu : strTruthy req.url = true)
    (herr : run.error = some e) :
    ((runCollector cfg req fs run).response =
      Response.failure 500 (callbackLogs run.chunks ++ "\n❌ Error: " ++ e.message)) ∧
    (∃ rest, callbackLogs run.chunks = combinedLog run.chunks ++ rest) ∧
    (∀ w : Bool, (runCollector cfg req fs { run with writes := w }).response =
      (runCollector cfg req fs run).response) := by
  refine ⟨?_, callbackLogs_extends_combinedLog run.chunks, ?_⟩
  · simp [runCollector, hu, herr]
  · intro w
    simp [runCollector, hu, herr]

/-- Witness for C6: a run whose program printed one stdout chunk and exited
non-zero; the 500 response carries the accumulated logs and the error line,
and the presence of the artifact is irrelevant. -/
theorem c6_nonzero_exit_fails_with_verbatim_logs_witness :
    ((runCollector cfg0
        { url := some "http://example.com", maxPages := none,
          csvFile := none, headless := false }
        []
        { error := some ⟨"Command failed: collector", FailKind.run 1⟩,
          chunks := [Chunk.out "page 1\n"], writes := false }).response =
      Response.failure 500
        (callbackLogs [Chunk.out "page 1\n"] ++ "\n❌ Error: " ++
          "Command failed: collector")) ∧
    (∃ rest, callbackLogs [Chunk.out "page 1\n"] =
      combinedLog [Chunk.out "page 1\n"] ++ rest) ∧
    (∀ w : Bool,
      (runCollector cfg0
        { url := some "http://example.com", maxPages := none,
          csvFile := none, headless := false }
        []
        { error := some ⟨"Command failed: collector", FailKind.run 1⟩,
          chunks := [Chunk.out "page 1\n"], writes := w }).response =
      (runCollector cfg0
        { url := some "http://example.com", maxPages := none,
          csvFile := none, headless := false }
        []
        { error := some ⟨"Command failed: collector", FailKind.run 1⟩,
          chunks := [Chunk.out "page 1\n"], writes := false }).response) :=
  c6_nonzero_exit_fails_with_verbatim_logs cfg0 _ _ _
    ⟨"Command failed: collector", FailKind.run 1⟩ (by decide) rfl

/-- The "CSV not generated" suffix appended on line 60 differs from the
error line appended on line 48, whatever the error message: the two lines
already differ at their second character. -/
theorem csv_signal_ne_error_line (m : String) :
    ¬ ("\nCSV not generated" : String) = "\n❌ Error: " ++ m := by
  intro h
  have hd : ("\nCSV not generated" : String).data.take 2 =
      (("\n❌ Error: " : String).data ++ m.data).take 2 := by
    rw [← String.data_append, ← h]
  rw [List.take_append_of_le_length (by decide)] at hd
  exact absurd hd (by decide)

/-- After the stale-delete of line 31, the expected path is not in the
filesystem, whether or not it existed before. -/
theorem not_mem_deleteFile (p : List String) (fs : List (List String)) :
    ¬ p ∈ deleteFile p fs := by
  unfold deleteFile
  by_cases h : p ∈ fs <;> simp [h, List.mem_filter]

/-- **C5.** When the external program exits cleanly (no exec error) but did
not write the artifact file, the Coordinator reports failure — HTTP 500,
success false — whose logs carry the distinct "CSV not generated" signal
(line 60), and this response differs from the failure response produced for
a non-zero exit of the same run, whatever the error message: the error
branch appends an error line that can never equal the artifact-missing
signal. -/
theorem c5_artifact_missing_distinct_signal (cfg : Config) (req : ReqBody)
    (fs : List (List String)) (run : RunBehavior)
    (hu : strTruthy req.url = true) (herr : run.error = none)
    (hw : run.writes = false) :
    ((runCollector cfg req fs run).response =
      Response.failure 500 (callbackLogs run.chunks ++ "\nCSV not generated")) ∧
    (∀ m k, (runCollector cfg req fs { run with error := some ⟨m, k⟩ }).response =
      Response.failure 500 (callbackLogs run.chunks ++ "\n❌ Error: " ++ m)) ∧
    (∀ m k, ¬ (runCollector cfg req fs run).response =
      (runCollector cfg req fs { run with error := some ⟨m, k⟩ }).response) := by
  have hmiss : (runCollector cfg req fs run).response =
      Response.failure 500 (callbackLogs run.chunks ++ "\nCSV not generated") := by
    simp only [runCollector, hu, herr, hw]
    rw [if_neg (show ¬ (false = true) by decide),
      if_neg (not_mem_deleteFile _ _)]
    simp
  have herrcase : ∀ m k,
      (runCollector cfg req fs { run with error := some ⟨m, k⟩ }).response =
      Response.failure 500 (callbackLogs run.chunks ++ "\n❌ Error: " ++ m) := by
    intro m k
    simp [runCollector, hu]
  refine ⟨hmiss, herrcase, ?_⟩
  intro m k h
  rw [hmiss, herrcase] at h
  have hlogs : callbackLogs run.chunks ++ "\nCSV not generated" =
      callbackLogs run.chunks ++ "\n❌ Error: " ++ m := by
    injection h
  rw [str_append_assoc] at hlogs
  exact csv_signal_ne_error_line m (str_append_left_cancel hlogs)

/-- Witness for C5: a clean-exit run with one stdout chunk that wrote no
file; the 500 response carries the "CSV not generated" signal and differs
from every non-zero-exit failure response for the same run. -/
theorem c5_artifact_missing_distinct_signal_witness :
    ((runCollector cfg0
        { url := some "http://example.com", maxPages := none,
          csvFile := none, headless := false }
        []
        { error := none, chunks := [Chunk.out "no ads today\n"],
          writes := false }).response =
      Response.failure 500
        (callbackLogs [Chunk.out "no ads today\n"] ++ "\nCSV not generated")) ∧
    (∀ m k,
      (runCollector cfg0
        { url := some "http://example.com", maxPages := none,
          csvFile := none, headless := false }
        []
        { error := some ⟨m, k⟩, chunks := [Chunk.out "no ads today\n"],
          writes := false }).response =
      Response.failure 500
        (callbackLogs [Chunk.out "no ads today\n"] ++ "\n❌ Error: " ++ m)) ∧
    (∀ m k, ¬ (runCollector cfg0
        { url := some "http://example.com", maxPages := none,
          csvFile := none, headless := false }
        []
        { error := none, chunks := [Chunk.out "no ads today\n"],
          writes := false }).response =
      (runCollector cfg0
        { url := some "http://example.com", maxPages := none,
          csvFile := none, headless := false }
        []
        { error := some ⟨m, k⟩, chunks := [Chunk.out "no ads today\n"],
          writes := false }).response) :=
  c5_artifact_missing_distinct_signal cfg0 _ _ _ (by decide) rfl rfl

/-- **C7, counterexample.** The claim fails on the code: a launch failure
and a run failure are not distinguishable in the outcome.  The handler
(lines 47-50) reads only `error.message`, never the error's kind
(`error.code`), and because the program is launched through a shell by
`exec`, an executable-not-found launch failure surfaces as an ordinary
non-zero shell exit anyway.  At this concrete request, a launch failure and
an exit-127 run failure with the same message produce identical outcomes —
the same 500 response, trace and filesystem — so no observer of the service
can tell the two kinds apart, and the run failure is not reported via exit
code as a normal result distinct from the error path. -/
theorem c7_launch_and_run_failure_same_outcome :
    runCollector cfg0
        { url := some "http://example.com", maxPages := none,
          csvFile := none, headless := false }
        []
        { error := some ⟨"Command failed: collector", FailKind.launch⟩,
          chunks := [Chunk.err "sh: 1: python: not found\n"], writes := false } =
      runCollector cfg0
        { url := some "http://example.com", maxPages := none,
          csvFile := none, headless := false }
        []
        { error := some ⟨"Command failed: collector", FailKind.run 127⟩,
          chunks := [Chunk.err "sh: 1: python: not found\n"], writes := false } := by
  rfl

/-- **C7, amended.** Launch failures and run failures are reported
identically: both arrive as the error argument of the exec completion
callback, and the handler produces the same outcome for every failure kind
with the same message — a 500 failure response with the error message
appended to the accumulated logs.  The two kinds are therefore
distinguishable only insofar as their error-message texts happen to
differ. -/
theorem c7_failure_kinds_reported_uniformly (cfg : Config) (req : ReqBody)
    (fs : List (List String)) (cs : List Chunk) (w : Bool) (m : String)
    (k k' : FailKind) (hu : strTruthy req.url = true) :
    runCollector cfg req fs { error := some ⟨m, k⟩, chunks := cs, writes := w } =
      runCollector cfg req fs { error := some ⟨m, k'⟩, chunks := cs, writes := w } ∧
    (runCollector cfg req fs
        { error := some ⟨m, k⟩, chunks := cs, writes := w }).response =
      Response.failure 500 (callbackLogs cs ++ "\n❌ Error: " ++ m) := by
  constructor
  · simp [runCollector, hu]
  · simp [runCollector, hu]

/-- Witness for the amended C7: a concrete launch failure and run failure
with the same message yield the same outcome, a 500 with the message in the
logs. -/
theorem c7_failure_kinds_reported_uniformly_witness :
    runCollector cfg0
        { url := some "http://example.com", maxPages := none,
          csvFile := none, headless := false }
        [["srv", "app", "ad_data_collection.csv"]]
        { error := some ⟨"Command failed: x", FailKind.launch⟩,
          chunks := [], writes := false } =
      runCollector cfg0
        { url := some "http://example.com", maxPages := none,
          csvFile := none, headless := false }
        [["srv", "app", "ad_data_collection.csv"]]
        { error := some ⟨"Command failed: x", FailKind.run 1⟩,
          chunks := [], writes := false } ∧
    (runCollector cfg0
        { url := some "http://example.com", maxPages := none,
          csvFile := none, headless := false }
        [["srv", "app", "ad_data_collection.csv"]]
        { error := some ⟨"Command failed: x", FailKind.launch⟩,
          chunks := [], writes := false }).response =
      Response.failure 500 (callbackLogs [] ++ "\n❌ Error: " ++ "Command failed: x") :=
  c7_failure_kinds_reported_uniformly cfg0 _ _ [] false "Command failed: x"
    FailKind.launch (FailKind.run 1) (by decide)

/-- **C8.** For a valid request whose expected artifact path already holds a
file, the handler deletes that file before the external program is started —
the side-effect trace is exactly the unlink of the expected path followed by
the spawn (lines 31 then 43) — and if the run does not write the file, the
expected path is absent from the final filesystem (the existence check of
line 53 is false) and no success response can be produced, so no stale
artifact survives to satisfy the post-run check or be downloaded. -/
theorem c8_stale_artifact_deleted_before_spawn (cfg : Config) (req : ReqBody)
    (fs : List (List String)) (run : RunBehavior)
    (hu : strTruthy req.url = true)
    (hpre : finalCsvFile cfg req.csvFile ∈ fs) :
    (∃ cmd, (runCollector cfg req fs run).trace =
      [Event.unlink (finalCsvFile cfg req.csvFile), Event.spawn cmd]) ∧
    (run.writes = false →
      ¬ finalCsvFile cfg req.csvFile ∈ (runCollector cfg req fs run).fs) ∧
    (run.writes = false → ∀ logs dl,
      ¬ (runCollector cfg req fs run).response = Response.success logs dl) := by
  refine ⟨?_, ?_, ?_⟩
  · refine ⟨buildCmd cfg (req.url.getD "")
      (renderPath (finalCsvFile cfg req.csvFile)) req.maxPages req.headless, ?_⟩
    simp only [runCollector, hu, hpre]
    rw [if_neg (show ¬ ¬ True by simp)]
    split <;> (try split) <;> (try split) <;> simp_all
  · intro hw
    simp only [runCollector, hu, hw]
    rcases run.error with _ | e <;>
      simp [hu, not_mem_deleteFile, not_mem_deleteFile _ fs]
  · intro hw logs dl
    simp only [runCollector, hu, hw]
    rw [if_neg (show ¬ (false = true) by decide),
      if_neg (not_mem_deleteFile _ _)]
    rcases run.error with _ | e <;> simp [hu]

/-- Witness for C8: a run for `csvFile = "report.csv"` with a stale
`report.csv` under the root; the old file is unlinked before the spawn and,
since the run writes nothing, the path is gone afterwards and the response
is not a success. -/
theorem c8_stale_artifact_deleted_before_spawn_witness :
    (∃ cmd, (runCollector cfg0
        { url := some "http://example.com", maxPages := none,
          csvFile := some "report.csv", headless := false }
        [["srv", "app", "report.csv"]]
        { error := none, chunks := [], writes := false }).trace =
      [Event.unlink (finalCsvFile cfg0 (some "report.csv")), Event.spawn cmd]) ∧
    ((false : Bool) = false →
      ¬ finalCsvFile cfg0 (some "report.csv") ∈ (runCollector cfg0
        { url := some "http://example.com", maxPages := none,
          csvFile := some "report.csv", headless := false }
        [["srv", "app", "report.csv"]]
        { error := none, chunks := [], writes := false }).fs) ∧
    ((false : Bool) = false → ∀ logs dl,
      ¬ (runCollector cfg0
        { url := some "http://example.com", maxPages := none,
          csvFile := some "report.csv", headless := false }
        [["srv", "app", "report.csv"]]
        { error := none, chunks := [], writes := false }).response =
        Response.success logs dl) :=
  c8_stale_artifact_deleted_before_spawn cfg0
    { url := some "http://example.com", maxPages := none,
      csvFile := some "report.csv", headless := false }
    [["srv", "app", "report.csv"]]
    { error := none, chunks := [], writes := false }
    (by decide) (by decide)

/-- The live combined log is exactly as long as the buffered stdout and
stderr together: every program output byte appended live by the data
handlers is appended once more from the buffers in the completion
callback. -/
theorem combinedLog_length (cs : List Chunk) :
    (combinedLog cs).length =
      (bufferedOut cs).length + (bufferedErr cs).length := by
  induction cs with
  | nil => rfl
  | cons c t ih =>
    cases c <;>
      simp [combinedLog, bufferedOut, bufferedErr, Chunk.text, Chunk.outPart,
        Chunk.errPart, str_length_append, ih] <;>
      omega

/-- The callback logs decompose as the live combined log followed by the
conditional re-appends of lines 44-45: a newline plus the whole buffered
stdout when it is nonempty, then a newline plus the whole buffered stderr
when it is nonempty. -/
theorem callbackLogs_decomposition (cs : List Chunk) :
    callbackLogs cs = combinedLog cs ++
      (if bufferedOut cs = "" then "" else "\n" ++ bufferedOut cs) ++
      (if bufferedErr cs = "" then "" else "\n" ++ bufferedErr cs) := by
  unfold callbackLogs
  by_cases h1 : bufferedOut cs = ""
  · by_cases h2 : bufferedErr cs = ""
    · simp only [h1, h2, ite_true]
      rw [str_append_empty, str_append_empty]
    · simp only [h1, h2, ite_true, ite_false]
      rw [str_append_empty, str_append_assoc]
  · by_cases h2 : bufferedErr cs = ""
    · simp only [h1, h2, ite_true, ite_false]
      rw [str_append_empty, str_append_assoc]
    · simp only [h1, h2, ite_false]
      simp only [str_append_assoc]

/-- **C10.** For every valid request, whatever stdout or stderr output the
program produced, the logs field of the HTTP response starts with the live
combined log (every chunk appended in arrival order by the handlers of
lines 65-71) followed by the buffered stdout and stderr re-appended by the
completion callback (each preceded by a newline when nonempty, lines 44-45).
So any output appears twice: the live combined log already has exactly the
length of the buffered stdout and stderr together, and the buffers follow it
again in full — including when only one of the two streams produced
output. -/
theorem c10_output_appears_twice_in_logs (cfg : Config) (req : ReqBody)
    (fs : List (List String)) (run : RunBehavior)
    (hu : strTruthy req.url = true) :
    (∃ tail, Response.logsField (runCollector cfg req fs run).response =
      some (combinedLog run.chunks ++
        (if bufferedOut run.chunks = "" then ""
          else "\n" ++ bufferedOut run.chunks) ++
        (if bufferedErr run.chunks = "" then ""
          else "\n" ++ bufferedErr run.chunks) ++ tail)) ∧
    (combinedLog run.chunks).length =
      (bufferedOut run.chunks).length + (bufferedErr run.chunks).length := by
  refine ⟨?_, combinedLog_length run.chunks⟩
  have hcb := callbackLogs_decomposition run.chunks
  simp only [runCollector, hu]
  rw [if_neg (show ¬ ¬ True by simp)]
  split
  · rename_i e heq
    exact ⟨"\n❌ Error: " ++ e.message, by
      simp [Response.logsField, hcb, str_append_assoc]⟩
  · split
    · exact ⟨"", by simp [Response.logsField, hcb, str_append_empty]⟩
    · exact ⟨"\nCSV not generated", by
        rw [if_neg (not_mem_deleteFile _ _)]
        simp [Response.logsField, hcb]⟩

/-- Witness for C10: a run whose program printed on stdout only; the
response logs contain that output twice — live and buffered. -/
theorem c10_output_appears_twice_in_logs_witness :
    (∃ tail, Response.logsField (runCollector cfg0
        { url := some "http://example.com", maxPages := none,
          csvFile := none, headless := false }
        []
        { error := none, chunks := [Chunk.out "found ad\n"],
          writes := true }).response =
      some (combinedLog [Chunk.out "found ad\n"] ++
        (if bufferedOut [Chunk.out "found ad\n"] = ""
          then "" else "\n" ++ bufferedOut [Chunk.out "found ad\n"]) ++
        (if bufferedErr [Chunk.out "found ad\n"] = ""
          then "" else "\n" ++ bufferedErr [Chunk.out "found ad\n"]) ++ tail)) ∧
    (combinedLog [Chunk.out "found ad\n"]).length =
      (bufferedOut [Chunk.out "found ad\n"]).length +
        (bufferedErr [Chunk.out "found ad\n"]).length :=
  c10_output_appears_twice_in_logs cfg0
    { url := some "http://example.com", maxPages := none,
      csvFile := none, headless := false }
    []
    { error := none, chunks := [Chunk.out "found ad\n"], writes := true }
    (by decide)

/-- **C3, counterexample.** The claim fails on the code at the
caller-supplied name `sub/report.csv`: for a run that exits cleanly and
writes the file at the expected path, the Coordinator reports success with
download reference `/download/report.csv` (`path.basename` drops the
directory, line 57), but the download route re-resolves that name to a
different path — the root followed by `report.csv` rather than
`sub/report.csv` — so the completed run's artifact is not retrievable: the
route answers 404. -/
theorem c3_subdirectory_name_breaks_roundtrip :
    ((runCollector cfg0
        { url := some "http://example.com", maxPages := none,
          csvFile := some "sub/report.csv", headless := false }
        []
        { error := none, chunks := [], writes := true }).response =
      Response.success "" "/download/report.csv") ∧
    (downloadRoute cfg0 "report.csv"
        (runCollector cfg0
          { url := some "http://example.com", maxPages := none,
            csvFile := some "sub/report.csv", headless := false }
          []
          { error := none, chunks := [], writes := true }).fs =
      DownloadResult.notFound 404) ∧
    ¬ joinPath cfg0.dirname
        (basename (joinPath cfg0.dirname "sub/report.csv")) =
      joinPath cfg0.dirname "sub/report.csv" := by
  refine ⟨by decide, by decide, by decide⟩

/-- **C3, amended.** For every caller-supplied `csvFile` name that is a
single plain path component (it splits to exactly itself and is not `.` or
`..`), a clean exit that wrote the artifact yields a success response whose
download reference `/download/<name>` re-resolves, via the download route
against the same trusted root, to exactly the artifact path the run
produced.  (The agreement can fail for a name containing a directory
separator, as the `sub/report.csv` counterexample shows; a separator-bearing
name that normalises to a plain component, such as `sub/../report.csv`,
still round-trips.) -/
theorem c3_plain_name_download_roundtrip (cfg : Config)
    (fs : List (List String)) (run : RunBehavior) (u name : String)
    (mp : Option Nat) (hl : Bool)
    (hu : ¬ u = "") (hsplit : splitPath name = [name])
    (hdot : ¬ name = ".") (hdotdot : ¬ name = "..")
    (herr : run.error = none) (hw : run.writes = true) :
    ((runCollector cfg
        { url := some u, maxPages := mp, csvFile := some name, headless := hl }
        fs run).response =
      Response.success (callbackLogs run.chunks) ("/download/" ++ name)) ∧
    (downloadRoute cfg name
        (runCollector cfg
          { url := some u, maxPages := mp, csvFile := some name, headless := hl }
          fs run).fs =
      DownloadResult.download (finalCsvFile cfg (some name))) := by
  have hne : ¬ name = "" := by
    intro h
    rw [h] at hsplit
    exact absurd hsplit (by decide)
  have hjoin : joinPath cfg.dirname name = cfg.dirname ++ [name] := by
    unfold joinPath
    rw [hsplit]
    unfold normSegs
    rw [if_neg (by simp [hne, hdot]), if_neg hdotdot]
    rfl
  have hfinal : finalCsvFile cfg (some name) = cfg.dirname ++ [name] := by
    simp [finalCsvFile, hne, hjoin]
  have hbase : basename (cfg.dirname ++ [name]) = name := by
    simp [basename, List.getLastD_concat]
  have hurl : strTruthy (some u) = true := by simp [strTruthy, hu]
  constructor
  · simp only [runCollector, hurl, herr, hw]
    rw [if_neg (show ¬ ¬ True by simp), if_pos trivial,
      if_pos (List.mem_cons_self _ _)]
    rw [show finalCsvFile cfg (some name) = cfg.dirname ++ [name] from hfinal,
      hbase]
  · simp only [runCollector, hurl, herr, hw]
    rw [if_neg (show ¬ ¬ True by simp), if_pos trivial]
    unfold downloadRoute
    rw [hjoin, ← hfinal]
    simp

/-- Witness for the amended C3: a clean writing run for the plain name
`report.csv`; the success response links `/download/report.csv` and the
download route re-resolves it to the artifact the run produced. -/
theorem c3_plain_name_download_roundtrip_witness :
    ((runCollector cfg0
        { url := some "http://example.com", maxPages := none,
          csvFile := some "report.csv", headless := false }
        []
        { error := none, chunks := [], writes := true }).response =
      Response.success (callbackLogs []) ("/download/" ++ "report.csv")) ∧
    (downloadRoute cfg0 "report.csv"
        (runCollector cfg0
          { url := some "http://example.com", maxPages := none,
            csvFile := some "report.csv", headless := false }
          []
          { error := none, chunks := [], writes := true }).fs =
      DownloadResult.download (finalCsvFile cfg0 (some "report.csv"))) :=
  c3_plain_name_download_roundtrip cfg0 [] _ "http://example.com" "report.csv"
    none false (by decide) (by decide) (by decide) (by decide) rfl rfl

end AdExtracter
